import Mathlib

/-!
Verification development for the ski/snow weather desktop application
(`ski_snow_weather_app_1_1.py`).

The embedding models the persistence layer (`load_locations`,
`save_locations`, `persist_state`), the forecast normalization
(`get_daily_forecast`) and the per-day rendering/highlight logic of
`WeatherApp.show_forecast`.

Modelling conventions:
* JSON documents are the inductive `JVal`; parsed JSON objects are
  association lists in insertion order, exactly as Python `dict`s from
  `json.load` behave (no duplicate keys are produced by the parser, and
  key assignment replaces in place while new keys append at the end).
* Python floats are modelled as `ℚ`; none of the verified properties
  depend on binary floating-point rounding.
* `float(x)` applied to a JSON value is `pyFloat`; conversion of numeric
  strings is not modelled (no verified property exercises it), such
  values conservatively yield an error, as do the values on which
  Python `float()` raises.
* The backing file is a `FileState`: absent, present-but-invalid JSON,
  or a parsed document.  A file operation returns the list of documents
  it wrote (`json.dump` calls), in order.
* The upstream Open-Meteo reply is an abstract `UpstreamResponse`
  carrying the epoch times, interval, UTC offset and the six daily
  arrays that `get_daily_forecast` reads.
-/

/-- A JSON value, as produced by `json.load`. -/
inductive JVal where
  | null
  | bool (b : Bool)
  | num (q : ℚ)
  | str (s : String)
  | arr (xs : List JVal)
  | obj (kvs : List (String × JVal))
  deriving Repr

/-- `kvs[key]` / `key in kvs` on a parsed-JSON dict: first (hence only)
occurrence of the key. -/
def lookupKey : List (String × JVal) → String → Option JVal
  | [], _ => none
  | (k, v) :: rest, key => if k = key then some v else lookupKey rest key

/-- `d[key] = v` on a Python dict: replace in place if the key exists,
append at the end otherwise. -/
def setObj : List (String × JVal) → String → JVal → List (String × JVal)
  | [], key, v => [(key, v)]
  | (k, w) :: rest, key, v =>
      if k = key then (key, v) :: rest else (k, w) :: setObj rest key v

/-- `d.setdefault(key, v)`: leave the dict alone when the key exists,
append `(key, v)` otherwise. -/
def setdefaultObj (kvs : List (String × JVal)) (key : String) (v : JVal) :
    List (String × JVal) :=
  match lookupKey kvs key with
  | some _ => kvs
  | none => kvs ++ [(key, v)]

/-- `DEFAULT_SETTINGS` (source lines 30–35), in dict insertion order. -/
def defaultSettingsKvs : List (String × JVal) :=
  [("highlight_snow_enabled", .bool true),
   ("highlight_snow_over_cm", .num 1),
   ("highlight_rain_enabled", .bool true),
   ("highlight_rain_over_mm", .num 1)]

/-- `DEFAULT_SETTINGS` as a JSON object. -/
def DEFAULT_SETTINGS : JVal := .obj defaultSettingsKvs

/-- `DEFAULT_LOCATIONS` (source lines 24–28). -/
def DEFAULT_LOCATIONS : JVal :=
  .obj [("Aspen Mountain", .obj [("lat", .num 39.156895), ("lon", .num (-106.820015))]),
        ("Deer Valley", .obj [("lat", .num 40.619605), ("lon", .num (-111.485073))]),
        ("Taos Ski Valley", .obj [("lat", .num 36.576941), ("lon", .num (-105.449794))])]

/-- Python `float(x)` on a JSON value.  Numbers pass through, booleans
coerce to 0/1.  Strings would be parsed by Python when numeric; no
verified property involves string coordinates, so they are modelled as
an error together with the values (`null`, containers) on which
`float()` raises `TypeError`/`ValueError`. -/
def pyFloat : JVal → Except String ℚ
  | .num q => .ok q
  | .bool b => .ok (if b then 1 else 0)
  | _ => .error "TypeError: float() argument"

/-- One step of the legacy-location conversion loop (source lines 53–55
and 62–64): a two-element array `[lat, lon]` becomes
`{"lat": float(lat), "lon": float(lon)}`; every other value is kept. -/
def convert_loc : JVal → Except String JVal
  | .arr [a, b] =>
      match pyFloat a with
      | .error e => .error e
      | .ok qa =>
          match pyFloat b with
          | .error e => .error e
          | .ok qb => .ok (.obj [("lat", .num qa), ("lon", .num qb)])
  | v => .ok v

/-- The whole conversion loop over a locations dict, left to right,
aborting at the first raised exception. -/
def convertAll : List (String × JVal) → Except String (List (String × JVal))
  | [] => .ok []
  | (k, v) :: rest =>
      match convert_loc v with
      | .error e => .error e
      | .ok v' =>
          match convertAll rest with
          | .error e => .error e
          | .ok rest' => .ok ((k, v') :: rest')

/-- The settings backfill loop (source lines 69–70): `setdefault` each
`DEFAULT_SETTINGS` entry, in insertion order. -/
def fill_settings (skvs : List (String × JVal)) : List (String × JVal) :=
  defaultSettingsKvs.foldl (fun acc kv => setdefaultObj acc kv.1 kv.2) skvs

/-- The settings dict `load_locations` works on after the guard on
source lines 67–68: the stored `settings` value when it is a dict, the
fresh empty dict otherwise (absent or non-dict). -/
def settingsListOf (kvs : List (String × JVal)) : List (String × JVal) :=
  match lookupKey kvs "settings" with
  | some (.obj s) => s
  | _ => []

/-- The state of `locations.json` as `load_locations` observes it. -/
inductive FileState where
  | absent
  | invalid
  | json (v : JVal)
  deriving Repr

/-- `load_locations()` (source lines 38–72).  First component: the value
returned to — or the exception raised at — the caller.  Second
component: the documents written to the backing file, in order.

The `.json` non-object case and a non-dict `data["locations"]` raise in
Python (`AttributeError`/`TypeError` on `.items()` or indexing); they
are modelled as errors with no write. -/
def load_locations : FileState → Except String JVal × List JVal
  | .absent =>
      let d := JVal.obj [("locations", DEFAULT_LOCATIONS), ("settings", DEFAULT_SETTINGS)]
      (.ok d, [d])
  | .invalid => (.error "json.decoder.JSONDecodeError: Expecting value", [])
  | .json (.obj kvs) =>
      match lookupKey kvs "locations" with
      | none =>
          -- legacy top-level shape: whole object is the locations dict
          match convertAll kvs with
          | .error e => (.error e, [])
          | .ok locs =>
              let d := JVal.obj [("locations", .obj locs), ("settings", DEFAULT_SETTINGS)]
              (.ok d, [d])
      | some (.obj lkvs) =>
          -- current shape: convert stray legacy pairs, backfill settings keys
          match convertAll lkvs with
          | .error e => (.error e, [])
          | .ok locs =>
              let kvs1 := setObj kvs "locations" (.obj locs)
              (.ok (.obj (setObj kvs1 "settings"
                (.obj (fill_settings (settingsListOf kvs1))))), [])
      | some _ => (.error "AttributeError: items", [])
  | .json _ => (.error "TypeError: argument of type is not iterable", [])

/-- `save_locations(doc)` (source lines 75–78): the backing file now
holds exactly the serialized document. -/
def save_locations (doc : JVal) : FileState := .json doc

/-- A value held by a Tk variable (`BooleanVar` / `DoubleVar`). -/
inductive PyVal where
  | bool (b : Bool)
  | num (q : ℚ)
  deriving Repr, DecidableEq

/-- Python truthiness / `bool(x)` of a Tk variable value. -/
def pyBool : PyVal → Bool
  | .bool b => b
  | .num q => decide (q ≠ 0)

/-- Python `float(x)` of a Tk variable value. -/
def pyFloatV : PyVal → ℚ
  | .bool b => if b then 1 else 0
  | .num q => q

/-- The four highlight Tk variables of `WeatherApp` (source lines
141–145). -/
structure AppVars where
  highlight_snow_enabled : PyVal
  highlight_snow_over_cm : PyVal
  highlight_rain_enabled : PyVal
  highlight_rain_over_mm : PyVal
  deriving Repr, DecidableEq

/-- `WeatherApp.persist_state` (source lines 184–194): the document
handed to `save_locations`. -/
def persist_state (locations : List (String × JVal)) (v : AppVars) : JVal :=
  .obj [("locations", .obj locations),
        ("settings", .obj
          [("highlight_snow_enabled", .bool (pyBool v.highlight_snow_enabled)),
           ("highlight_snow_over_cm", .num (pyFloatV v.highlight_snow_over_cm)),
           ("highlight_rain_enabled", .bool (pyBool v.highlight_rain_enabled)),
           ("highlight_rain_over_mm", .num (pyFloatV v.highlight_rain_over_mm))])]

/-- One row of the DataFrame built by `get_daily_forecast` (source lines
111–119).  `date` is the naive epoch-seconds timestamp. -/
structure Row where
  date : ℤ
  snowfall : ℚ
  rain : ℚ
  tmax : ℚ
  tmin : ℚ
  sunshine : ℚ
  code : ℚ
  deriving Repr, DecidableEq

/-- The fields of the upstream Open-Meteo daily reply that
`get_daily_forecast` reads. -/
structure UpstreamResponse where
  time : ℤ
  time_end : ℤ
  interval : ℤ
  utc_offset : ℤ
  snowfall_sum : List ℚ
  rain_sum : List ℚ
  temperature_max : List ℚ
  temperature_min : List ℚ
  sunshine_duration : List ℚ
  weather_code : List ℚ
  deriving Repr, DecidableEq

/-- `pd.date_range(start=…, end=…, freq=step, inclusive="left")` on
epoch-second timestamps with a positive step: all points
`start + k*step` in `[start, stop)`. -/
def date_range (start stop step : ℤ) : List ℤ :=
  (List.range (((stop - start).toNat + (step.toNat - 1)) / step.toNat)).map
    (fun k : ℕ => start + (k : ℤ) * step)

/-- `get_daily_forecast(lat, lon)` (source lines 84–121), abstracted over
the upstream reply.  The DataFrame constructor requires all columns to
share the index length; rows align the date with the six daily arrays
by position. -/
def get_daily_forecast (resp : UpstreamResponse) : Except String (List Row) :=
  let dates := date_range (resp.time + resp.utc_offset)
      (resp.time_end + resp.utc_offset) resp.interval
  let n := dates.length
  if resp.snowfall_sum.length = n ∧ resp.rain_sum.length = n ∧
      resp.temperature_max.length = n ∧ resp.temperature_min.length = n ∧
      resp.sunshine_duration.length = n ∧ resp.weather_code.length = n then
    .ok ((List.range n).map (fun i =>
      { date := dates.getD i 0,
        snowfall := resp.snowfall_sum.getD i 0,
        rain := resp.rain_sum.getD i 0,
        tmax := resp.temperature_max.getD i 0,
        tmin := resp.temperature_min.getD i 0,
        sunshine := resp.sunshine_duration.getD i 0,
        code := resp.weather_code.getD i 0 }))
  else .error "ValueError: All arrays must be of the same length"

/-- `row["Date"].date()`: the calendar-day number of a timestamp
(floor division; `/` on `ℤ` is Euclidean division, which is floor
division for the positive divisor 86400). -/
def dayOf (r : Row) : ℤ := r.date / 86400

/-- Python `int(float(x))`: truncation toward zero. -/
def pytrunc (q : ℚ) : ℤ := if 0 ≤ q then ⌊q⌋ else ⌈q⌉

/-- One rendered forecast line of `show_forecast` (source lines
210–241), keeping the numeric values and the highlight tags of the
rain and snow segments.  (The textual `%.1f` formatting carries no
verified property and is not modelled.) -/
structure RenderedLine where
  day : ℤ
  tmin : ℚ
  tmax : ℚ
  rain_mm : ℚ
  rain_high : Bool
  snow_cm : ℚ
  snow_high : Bool
  sun_h : ℚ
  code : ℤ
  deriving Repr, DecidableEq

/-- The per-row body of the `show_forecast` loop: field extraction
(lines 211–220) and the two highlight decisions (lines 227 and 236).
`snow_cm` reads the `"Snowfall (mm)"` column directly — the source
comment on line 217 records that the upstream value is already in cm
and no conversion is applied. -/
def render_row (row : Row) (v : AppVars) : RenderedLine :=
  { day := dayOf row,
    tmin := row.tmin,
    tmax := row.tmax,
    rain_mm := row.rain,
    rain_high := pyBool v.highlight_rain_enabled &&
      decide (row.rain > pyFloatV v.highlight_rain_over_mm),
    snow_cm := row.snowfall,
    snow_high := pyBool v.highlight_snow_enabled &&
      decide (row.snowfall > pyFloatV v.highlight_snow_over_cm),
    sun_h := row.sunshine / 3600,
    code := pytrunc row.code }

/-- An item of the output text widget. -/
inductive OutputItem where
  | header (name : String)
  | sep
  | line (l : RenderedLine)
  deriving Repr, DecidableEq

/-- The application state `show_forecast` can touch: the output widget
content, the in-memory locations dict and the highlight variables. -/
structure AppState where
  output : List OutputItem
  locations : List (String × JVal)
  vars : AppVars
  deriving Repr

/-- `WeatherApp.show_forecast` (source lines 196–241), abstracted over
the outcome of the `get_daily_forecast` call.  On an exception the
handler shows `str(e)` in an error dialog and returns with the state
untouched; only on success is the widget cleared and refilled. -/
def show_forecast (st : AppState) (location_name : String)
    (fetched : Except String (List Row)) : AppState × Option String :=
  match fetched with
  | .error e => (st, some e)
  | .ok df =>
      let items := df.map (fun r => OutputItem.line (render_row r st.vars))
      ({ st with
          output := OutputItem.header location_name :: OutputItem.sep :: items },
       none)

/-! ### Association-list lemmas -/

theorem lookupKey_setObj_self (kvs : List (String × JVal)) (k : String) (v : JVal) :
    lookupKey (setObj kvs k v) k = some v := by
  induction kvs with
  | nil => simp [setObj, lookupKey]
  | cons p rest ih =>
      obtain ⟨a, w⟩ := p
      by_cases h : a = k
      · simp [setObj, h, lookupKey]
      · simp [setObj, h, lookupKey, ih]

theorem lookupKey_setObj_ne (kvs : List (String × JVal)) (k k' : String) (v : JVal)
    (h : k' ≠ k) : lookupKey (setObj kvs k v) k' = lookupKey kvs k' := by
  have hks : ¬ k = k' := fun hh => h hh.symm
  induction kvs with
  | nil => simp [setObj, lookupKey, hks]
  | cons p rest ih =>
      obtain ⟨a, w⟩ := p
      by_cases ha : a = k
      · subst ha
        simp [setObj, lookupKey, hks]
      · simp [setObj, ha, lookupKey, ih]

theorem setObj_eq_self (kvs : List (String × JVal)) (k : String) (v : JVal)
    (h : lookupKey kvs k = some v) : setObj kvs k v = kvs := by
  induction kvs with
  | nil => simp [lookupKey] at h
  | cons p rest ih =>
      obtain ⟨a, w⟩ := p
      by_cases ha : a = k
      · subst ha
        simp [lookupKey] at h
        simp [setObj, h]
      · simp [lookupKey, ha] at h
        simp [setObj, ha, ih h]

theorem lookupKey_append_some (xs ys : List (String × JVal)) (k : String) (v : JVal)
    (h : lookupKey xs k = some v) : lookupKey (xs ++ ys) k = some v := by
  induction xs with
  | nil => simp [lookupKey] at h
  | cons p rest ih =>
      obtain ⟨a, w⟩ := p
      by_cases ha : a = k
      · subst ha; simp [lookupKey] at h ⊢; exact h
      · simp [lookupKey, ha] at h ⊢; exact ih h

theorem lookupKey_append_none (xs ys : List (String × JVal)) (k : String)
    (h : lookupKey xs k = none) : lookupKey (xs ++ ys) k = lookupKey ys k := by
  induction xs with
  | nil => simp [lookupKey]
  | cons p rest ih =>
      obtain ⟨a, w⟩ := p
      by_cases ha : a = k
      · subst ha; simp [lookupKey] at h
      · simp [lookupKey, ha] at h ⊢; exact ih h

theorem setdefaultObj_of_isSome (kvs : List (String × JVal)) (k : String) (v : JVal)
    (h : (lookupKey kvs k).isSome) : setdefaultObj kvs k v = kvs := by
  unfold setdefaultObj
  cases hE : lookupKey kvs k with
  | some w => rfl
  | none => rw [hE] at h; simp at h

theorem lookupKey_setdefault_some (kvs : List (String × JVal)) (k k' : String)
    (v w : JVal) (h : lookupKey kvs k' = some w) :
    lookupKey (setdefaultObj kvs k v) k' = some w := by
  unfold setdefaultObj
  cases hE : lookupKey kvs k with
  | some u => exact h
  | none => exact lookupKey_append_some _ _ _ _ h

theorem lookupKey_setdefault_none_ne (kvs : List (String × JVal)) (k k' : String)
    (v : JVal) (hne : k' ≠ k) (h : lookupKey kvs k' = none) :
    lookupKey (setdefaultObj kvs k v) k' = none := by
  unfold setdefaultObj
  cases hE : lookupKey kvs k with
  | some u => exact h
  | none =>
      have hks : ¬ k = k' := fun hh => hne hh.symm
      rw [lookupKey_append_none _ _ _ h]
      simp [lookupKey, hks]

theorem lookupKey_setdefault_self_none (kvs : List (String × JVal)) (k : String)
    (v : JVal) (h : lookupKey kvs k = none) :
    lookupKey (setdefaultObj kvs k v) k = some v := by
  unfold setdefaultObj
  rw [h, lookupKey_append_none _ _ _ h]
  simp [lookupKey]

/-! ### Conversion-loop lemmas -/

theorem convert_loc_obj (l : List (String × JVal)) :
    convert_loc (.obj l) = .ok (.obj l) := rfl

theorem convertAll_id (kvs : List (String × JVal))
    (h : ∀ p ∈ kvs, convert_loc p.2 = .ok p.2) : convertAll kvs = .ok kvs := by
  induction kvs with
  | nil => rfl
  | cons p rest ih =>
      obtain ⟨a, w⟩ := p
      have hw : convert_loc w = .ok w := h (a, w) (by simp)
      have hr : convertAll rest = .ok rest := ih (fun q hq => h q (by simp [hq]))
      simp [convertAll, hw, hr]

theorem convertAll_lookup (kvs locs : List (String × JVal)) (k : String)
    (v v' : JVal) (hc : convertAll kvs = .ok locs)
    (h : lookupKey kvs k = some v) (hv : convert_loc v = .ok v') :
    lookupKey locs k = some v' := by
  induction kvs generalizing locs with
  | nil => simp [lookupKey] at h
  | cons p rest ih =>
      obtain ⟨a, w⟩ := p
      cases hw : convert_loc w with
      | error e => simp [convertAll, hw] at hc
      | ok w' =>
          cases hr : convertAll rest with
          | error e => simp [convertAll, hw, hr] at hc
          | ok rest' =>
              simp [convertAll, hw, hr] at hc
              subst hc
              by_cases ha : a = k
              · subst ha
                simp [lookupKey] at h
                subst h
                rw [hw] at hv
                simp at hv
                simp [lookupKey, hv]
              · simp [lookupKey, ha] at h ⊢
                exact ih rest' hr h

/-! ### Unfolding lemmas for the loader branches -/

theorem load_locations_current (kvs lkvs locs : List (String × JVal))
    (hl : lookupKey kvs "locations" = some (.obj lkvs))
    (hc : convertAll lkvs = .ok locs) :
    load_locations (.json (.obj kvs)) =
      (.ok (.obj (setObj (setObj kvs "locations" (.obj locs)) "settings"
        (.obj (fill_settings (settingsListOf (setObj kvs "locations" (.obj locs))))))),
       []) := by
  simp [load_locations, hl, hc]

theorem load_locations_current_error (kvs lkvs : List (String × JVal)) (e : String)
    (hl : lookupKey kvs "locations" = some (.obj lkvs))
    (hc : convertAll lkvs = .error e) :
    load_locations (.json (.obj kvs)) = (.error e, []) := by
  simp [load_locations, hl, hc]

theorem load_locations_no_wrapper (kvs locs : List (String × JVal))
    (hl : lookupKey kvs "locations" = none)
    (hc : convertAll kvs = .ok locs) :
    load_locations (.json (.obj kvs)) =
      (.ok (.obj [("locations", .obj locs), ("settings", DEFAULT_SETTINGS)]),
       [.obj [("locations", .obj locs), ("settings", DEFAULT_SETTINGS)]]) := by
  simp [load_locations, hl, hc]

theorem settingsListOf_setObj_locations (kvs : List (String × JVal)) (v : JVal) :
    settingsListOf (setObj kvs "locations" v) = settingsListOf kvs := by
  unfold settingsListOf
  rw [lookupKey_setObj_ne kvs "locations" "settings" v (by decide)]

/-! ### Claim theorems -/

/-- Claim C1: for every forecast day and settings, the rendered rain
segment is flagged high iff rain highlighting is enabled and `rain_mm`
is strictly greater than the rain threshold, and the snow segment is
flagged high iff snow highlighting is enabled and `snow_cm` is strictly
greater than the snow threshold; each flag depends only on its own
enable/threshold pair, so the two are decided independently. -/
theorem rain_snow_highlight_iff (row : Row) (v : AppVars) :
    ((render_row row v).rain_high = true ↔
      (pyBool v.highlight_rain_enabled = true ∧
        row.rain > pyFloatV v.highlight_rain_over_mm)) ∧
    ((render_row row v).snow_high = true ↔
      (pyBool v.highlight_snow_enabled = true ∧
        row.snowfall > pyFloatV v.highlight_snow_over_cm)) := by
  constructor <;> simp [render_row]

/-- Claim C8: a backing file whose content is not valid JSON makes
`load_locations` raise to its caller — it neither returns a default
document nor writes anything to the backing file. -/
theorem invalid_json_load_fails_without_write :
    load_locations .invalid =
      (.error "json.decoder.JSONDecodeError: Expecting value", []) := rfl

/-- Claim C9: when the forecast fetch raises, `show_forecast` surfaces
the underlying cause message in an error dialog and returns with the
application state — output widget content, locations dict and
highlight settings — exactly as it was. -/
theorem show_forecast_error_preserves_state (st : AppState)
    (location_name : String) (e : String) :
    show_forecast st location_name (.error e) = (st, some e) ∧
    (show_forecast st location_name (.error e)).1.output = st.output ∧
    (show_forecast st location_name (.error e)).1.locations = st.locations ∧
    (show_forecast st location_name (.error e)).1.vars = st.vars := by
  refine ⟨rfl, rfl, rfl, rfl⟩

/-- The top-level key list of a document. -/
def topKeys : JVal → List String
  | .obj kvs => kvs.map Prod.fst
  | _ => []

/-- The key list of the `settings` object of a document. -/
def settingsKeys (d : JVal) : List String :=
  match d with
  | .obj kvs => (settingsListOf kvs).map Prod.fst
  | _ => []

/-- The value stored under key `k` of the `settings` object of a
document. -/
def settingsVal (d : JVal) (k : String) : Option JVal :=
  match d with
  | .obj kvs => lookupKey (settingsListOf kvs) k
  | _ => none

/-- Claim C10: every document `persist_state` hands to `save_locations`
has exactly the top-level keys `locations` and `settings`, and its
settings object holds exactly the four recognized keys, the enable
flags coerced to booleans and the thresholds coerced to floats,
whatever values the Tk variables currently hold. -/
theorem persist_state_document_shape (locations : List (String × JVal))
    (v : AppVars) :
    topKeys (persist_state locations v) = ["locations", "settings"] ∧
    settingsKeys (persist_state locations v) =
      ["highlight_snow_enabled", "highlight_snow_over_cm",
       "highlight_rain_enabled", "highlight_rain_over_mm"] ∧
    settingsVal (persist_state locations v) "highlight_snow_enabled" =
      some (.bool (pyBool v.highlight_snow_enabled)) ∧
    settingsVal (persist_state locations v) "highlight_snow_over_cm" =
      some (.num (pyFloatV v.highlight_snow_over_cm)) ∧
    settingsVal (persist_state locations v) "highlight_rain_enabled" =
      some (.bool (pyBool v.highlight_rain_enabled)) ∧
    settingsVal (persist_state locations v) "highlight_rain_over_mm" =
      some (.num (pyFloatV v.highlight_rain_over_mm)) := by
  refine ⟨rfl, rfl, ?_, ?_, ?_, ?_⟩ <;>
    simp [settingsVal, settingsListOf, persist_state, lookupKey]

/-! ### Settings-backfill lemmas -/

theorem fill_settings_eq (skvs : List (String × JVal)) :
    fill_settings skvs =
      setdefaultObj (setdefaultObj (setdefaultObj (setdefaultObj skvs
        "highlight_snow_enabled" (.bool true))
        "highlight_snow_over_cm" (.num 1))
        "highlight_rain_enabled" (.bool true))
        "highlight_rain_over_mm" (.num 1) := rfl

theorem fill_settings_lookup_some (skvs : List (String × JVal)) (k : String)
    (u : JVal) (h : lookupKey skvs k = some u) :
    lookupKey (fill_settings skvs) k = some u := by
  rw [fill_settings_eq]
  exact lookupKey_setdefault_some _ _ _ _ _
    (lookupKey_setdefault_some _ _ _ _ _
      (lookupKey_setdefault_some _ _ _ _ _
        (lookupKey_setdefault_some _ _ _ _ _ h)))

theorem fill_settings_complete (skvs : List (String × JVal))
    (h1 : (lookupKey skvs "highlight_snow_enabled").isSome)
    (h2 : (lookupKey skvs "highlight_snow_over_cm").isSome)
    (h3 : (lookupKey skvs "highlight_rain_enabled").isSome)
    (h4 : (lookupKey skvs "highlight_rain_over_mm").isSome) :
    fill_settings skvs = skvs := by
  rw [fill_settings_eq, setdefaultObj_of_isSome _ _ _ h1,
    setdefaultObj_of_isSome _ _ _ h2, setdefaultObj_of_isSome _ _ _ h3,
    setdefaultObj_of_isSome _ _ _ h4]

theorem fill_settings_fills (skvs : List (String × JVal)) (k : String) (dv : JVal)
    (hd : lookupKey defaultSettingsKvs k = some dv)
    (h0 : lookupKey skvs k = none) :
    lookupKey (fill_settings skvs) k = some dv := by
  rw [fill_settings_eq]
  by_cases e1 : ("highlight_snow_enabled" : String) = k
  · subst e1
    simp [defaultSettingsKvs, lookupKey] at hd
    subst hd
    exact lookupKey_setdefault_some _ _ _ _ _
      (lookupKey_setdefault_some _ _ _ _ _
        (lookupKey_setdefault_some _ _ _ _ _
          (lookupKey_setdefault_self_none _ _ _ h0)))
  by_cases e2 : ("highlight_snow_over_cm" : String) = k
  · subst e2
    simp [defaultSettingsKvs, lookupKey] at hd
    subst hd
    refine lookupKey_setdefault_some _ _ _ _ _
      (lookupKey_setdefault_some _ _ _ _ _
        (lookupKey_setdefault_self_none _ _ _ ?_))
    exact lookupKey_setdefault_none_ne _ _ _ _ (by decide) h0
  by_cases e3 : ("highlight_rain_enabled" : String) = k
  · subst e3
    simp [defaultSettingsKvs, lookupKey] at hd
    subst hd
    refine lookupKey_setdefault_some _ _ _ _ _
      (lookupKey_setdefault_self_none _ _ _ ?_)
    exact lookupKey_setdefault_none_ne _ _ _ _ (by decide)
      (lookupKey_setdefault_none_ne _ _ _ _ (by decide) h0)
  by_cases e4 : ("highlight_rain_over_mm" : String) = k
  · subst e4
    simp [defaultSettingsKvs, lookupKey] at hd
    subst hd
    refine lookupKey_setdefault_self_none _ _ _ ?_
    exact lookupKey_setdefault_none_ne _ _ _ _ (by decide)
      (lookupKey_setdefault_none_ne _ _ _ _ (by decide)
        (lookupKey_setdefault_none_ne _ _ _ _ (by decide) h0))
  · simp [defaultSettingsKvs, lookupKey, e1, e2, e3, e4] at hd

/-- The locations dict of a loaded document (empty for shapes the
claims never produce). -/
def locationsListOf (d : JVal) : List (String × JVal) :=
  match d with
  | .obj kvs =>
      match lookupKey kvs "locations" with
      | some (.obj l) => l
      | _ => []
  | _ => []

/-- `isinstance(v, dict)`-style test: is the JSON value an object? -/
def isObjV : JVal → Bool
  | .obj _ => true
  | _ => false

theorem convert_loc_of_isObjV (v : JVal) (h : isObjV v = true) :
    convert_loc v = .ok v := by
  cases v <;> first | rfl | simp [isObjV] at h

/-- Claim C5: a backing file whose top-level object lacks a `locations`
key is treated as a locations mapping: every two-element `[lat, lon]`
value is converted to a `{lat, lon}` object, the result is wrapped
under `{locations, settings: defaults}`, written back to the file, and
returned. -/
theorem missing_locations_key_migration (kvs locs : List (String × JVal))
    (h0 : lookupKey kvs "locations" = none)
    (hc : convertAll kvs = .ok locs) :
    load_locations (.json (.obj kvs)) =
      (.ok (.obj [("locations", .obj locs), ("settings", DEFAULT_SETTINGS)]),
       [.obj [("locations", .obj locs), ("settings", DEFAULT_SETTINGS)]]) ∧
    (∀ k a b qa qb, lookupKey kvs k = some (.arr [a, b]) →
      pyFloat a = .ok qa → pyFloat b = .ok qb →
      lookupKey locs k = some (.obj [("lat", .num qa), ("lon", .num qb)])) := by
  refine ⟨load_locations_no_wrapper kvs locs h0 hc, ?_⟩
  intro k a b qa qb hk ha hb
  exact convertAll_lookup kvs locs k _ _ hc hk (by simp [convert_loc, ha, hb])

/-- Witness for C5: the spec's example — a location stored as
`[39.1, -106.8]` in a wrapper-less file loads (and is written back) as
`{"lat": 39.1, "lon": -106.8}`. -/
theorem missing_locations_key_migration_w :
    load_locations (.json (.obj [("Test Peak", .arr [.num 39.1, .num (-106.8)])])) =
      (.ok (.obj [("locations", .obj [("Test Peak",
          .obj [("lat", .num 39.1), ("lon", .num (-106.8))])]),
        ("settings", DEFAULT_SETTINGS)]),
       [.obj [("locations", .obj [("Test Peak",
          .obj [("lat", .num 39.1), ("lon", .num (-106.8))])]),
        ("settings", DEFAULT_SETTINGS)]]) ∧
    lookupKey [("Test Peak", .obj [("lat", .num 39.1), ("lon", .num (-106.8))])]
      "Test Peak" = some (.obj [("lat", .num 39.1), ("lon", .num (-106.8))]) :=
  ⟨(missing_locations_key_migration
      [("Test Peak", .arr [.num 39.1, .num (-106.8)])]
      [("Test Peak", .obj [("lat", .num 39.1), ("lon", .num (-106.8))])]
      rfl rfl).1,
   (missing_locations_key_migration
      [("Test Peak", .arr [.num 39.1, .num (-106.8)])]
      [("Test Peak", .obj [("lat", .num 39.1), ("lon", .num (-106.8))])]
      rfl rfl).2 "Test Peak" _ _ _ _ rfl rfl rfl⟩

/-- Counterexample for C2: a current-shape file holding the legacy
entry `"Old Lodge": [39.1, -106.8]`.  `load_locations` returns the
document with that entry converted to a `{lat, lon}` object, yet its
write list is empty — the migrated form is NOT written back to the
backing file, contradicting the claim that load persists exactly when
legacy location forms were found. -/
theorem current_shape_legacy_not_persisted_cex :
    lookupKey [("Old Lodge", JVal.arr [.num 39.1, .num (-106.8)])] "Old Lodge" =
      some (.arr [.num 39.1, .num (-106.8)]) ∧
    load_locations (.json (.obj
      [("locations", .obj [("Old Lodge", .arr [.num 39.1, .num (-106.8)])]),
       ("settings", .obj defaultSettingsKvs)])) =
      (.ok (.obj
        [("locations", .obj [("Old Lodge",
            .obj [("lat", .num 39.1), ("lon", .num (-106.8))])]),
         ("settings", .obj defaultSettingsKvs)]),
       []) :=
  ⟨rfl, rfl⟩

/-- Claim C2 as amended: for every current-shape file (top-level
`locations` key present) on which `load_locations` returns normally,
each legacy two-element `[lat, lon]` entry is converted to a
`{lat, lon}` object in the returned document, but nothing is written
back to the backing file — load persists only when the `locations`
wrapper is missing or the file is absent. -/
theorem current_shape_legacy_migration_in_memory
    (kvs lkvs : List (String × JVal)) (d : JVal) (w : List JVal)
    (hl : lookupKey kvs "locations" = some (.obj lkvs))
    (h : load_locations (.json (.obj kvs)) = (.ok d, w)) :
    w = [] ∧
    (∀ k a b qa qb, lookupKey lkvs k = some (.arr [a, b]) →
      pyFloat a = .ok qa → pyFloat b = .ok qb →
      lookupKey (locationsListOf d) k =
        some (.obj [("lat", .num qa), ("lon", .num qb)])) := by
  cases hc : convertAll lkvs with
  | error e => rw [load_locations_current_error kvs lkvs e hl hc] at h; simp at h
  | ok locs =>
      rw [load_locations_current kvs lkvs locs hl hc, Prod.mk.injEq] at h
      obtain ⟨hd, hw⟩ := h
      injection hd with hd
      subst hd
      subst hw
      refine ⟨rfl, ?_⟩
      intro k a b qa qb hk ha hb
      have hlook : lookupKey (setObj (setObj kvs "locations" (.obj locs)) "settings"
            (.obj (fill_settings (settingsListOf
              (setObj kvs "locations" (.obj locs)))))) "locations" =
          some (.obj locs) := by
        rw [lookupKey_setObj_ne _ "settings" "locations" _ (by decide),
          lookupKey_setObj_self]
      have hdl : locationsListOf (JVal.obj
          (setObj (setObj kvs "locations" (.obj locs)) "settings"
            (.obj (fill_settings (settingsListOf
              (setObj kvs "locations" (.obj locs))))))) = locs := by
        simp [locationsListOf, hlook]
      rw [hdl]
      exact convertAll_lookup lkvs locs k _ _ hc hk (by simp [convert_loc, ha, hb])

/-- Witness for the amended C2 at the counterexample input: the
returned document holds the converted entry and the write list is
empty. -/
theorem current_shape_legacy_migration_in_memory_w :
    ([] : List JVal) = [] ∧
    lookupKey (locationsListOf (JVal.obj
      [("locations", .obj [("Old Lodge",
          .obj [("lat", .num 39.1), ("lon", .num (-106.8))])]),
       ("settings", .obj defaultSettingsKvs)])) "Old Lodge" =
      some (.obj [("lat", .num 39.1), ("lon", .num (-106.8))]) :=
  ⟨(current_shape_legacy_migration_in_memory
      [("locations", .obj [("Old Lodge", .arr [.num 39.1, .num (-106.8)])]),
       ("settings", .obj defaultSettingsKvs)]
      [("Old Lodge", .arr [.num 39.1, .num (-106.8)])] _ _ rfl rfl).1,
   (current_shape_legacy_migration_in_memory
      [("locations", .obj [("Old Lodge", .arr [.num 39.1, .num (-106.8)])]),
       ("settings", .obj defaultSettingsKvs)]
      [("Old Lodge", .arr [.num 39.1, .num (-106.8)])] _ _ rfl rfl).2
     "Old Lodge" _ _ _ _ rfl rfl rfl⟩

/-- Claim C6: when a current-shape document loads, every settings key
already present keeps its stored value, every recognized key that is
missing is filled with its `DEFAULT_SETTINGS` value, and in particular
a document missing `highlight_rain_over_mm` loads with that key set to
`1.0`. -/
theorem settings_default_fill (kvs lkvs skvs : List (String × JVal))
    (d : JVal) (w : List JVal)
    (hl : lookupKey kvs "locations" = some (.obj lkvs))
    (hs : lookupKey kvs "settings" = some (.obj skvs))
    (h : load_locations (.json (.obj kvs)) = (.ok d, w)) :
    (∀ k u, lookupKey skvs k = some u → settingsVal d k = some u) ∧
    (∀ k dv, lookupKey defaultSettingsKvs k = some dv →
      lookupKey skvs k = none → settingsVal d k = some dv) ∧
    (lookupKey skvs "highlight_rain_over_mm" = none →
      settingsVal d "highlight_rain_over_mm" = some (.num 1)) := by
  cases hc : convertAll lkvs with
  | error e => rw [load_locations_current_error kvs lkvs e hl hc] at h; simp at h
  | ok locs =>
      rw [load_locations_current kvs lkvs locs hl hc, Prod.mk.injEq] at h
      obtain ⟨hd, hw⟩ := h
      injection hd with hd
      subst hd
      have hs0 : settingsListOf (setObj kvs "locations" (.obj locs)) = skvs := by
        rw [settingsListOf_setObj_locations]
        simp [settingsListOf, hs]
      have hsetl : settingsListOf (setObj (setObj kvs "locations" (.obj locs))
            "settings" (.obj (fill_settings (settingsListOf
              (setObj kvs "locations" (.obj locs)))))) =
          fill_settings skvs := by
        rw [hs0]
        simp [settingsListOf, lookupKey_setObj_self]
      have hsv : ∀ k', settingsVal (JVal.obj
          (setObj (setObj kvs "locations" (.obj locs)) "settings"
            (.obj (fill_settings (settingsListOf
              (setObj kvs "locations" (.obj locs))))))) k' =
          lookupKey (fill_settings skvs) k' := by
        intro k'
        simp only [settingsVal]
        rw [hsetl]
      refine ⟨?_, ?_, ?_⟩
      · intro k u hk
        rw [hsv]
        exact fill_settings_lookup_some _ _ _ hk
      · intro k dv hd0 h0
        rw [hsv]
        exact fill_settings_fills _ _ _ hd0 h0
      · intro h0
        rw [hsv]
        exact fill_settings_fills _ _ _ rfl h0

/-- Witness for C6: a document whose settings hold only
`highlight_snow_enabled = false` loads with `highlight_rain_over_mm`
backfilled to `1.0` and the stored `false` untouched. -/
theorem settings_default_fill_w :
    settingsVal (JVal.obj
      [("locations", .obj []),
       ("settings", .obj
         [("highlight_snow_enabled", .bool false),
          ("highlight_snow_over_cm", .num 1),
          ("highlight_rain_enabled", .bool true),
          ("highlight_rain_over_mm", .num 1)])])
      "highlight_rain_over_mm" = some (.num 1) ∧
    settingsVal (JVal.obj
      [("locations", .obj []),
       ("settings", .obj
         [("highlight_snow_enabled", .bool false),
          ("highlight_snow_over_cm", .num 1),
          ("highlight_rain_enabled", .bool true),
          ("highlight_rain_over_mm", .num 1)])])
      "highlight_snow_enabled" = some (.bool false) :=
  ⟨(settings_default_fill
      [("locations", .obj []),
       ("settings", .obj [("highlight_snow_enabled", .bool false)])]
      [] [("highlight_snow_enabled", .bool false)] _ []
      rfl rfl rfl).2.2 rfl,
   (settings_default_fill
      [("locations", .obj []),
       ("settings", .obj [("highlight_snow_enabled", .bool false)])]
      [] [("highlight_snow_enabled", .bool false)] _ []
      rfl rfl rfl).1 "highlight_snow_enabled" (.bool false) rfl⟩

/-- Claim C7: for a document already in current shape — a `locations`
mapping of `{lat, lon}` objects and a settings dict holding all four
recognized keys — `load_locations` returns the document unchanged
without writing, and loading again after `save_locations` yields the
identical document. -/
theorem load_save_load_roundtrip (kvs lkvs skvs : List (String × JVal))
    (hl : lookupKey kvs "locations" = some (.obj lkvs))
    (hobj : ∀ p ∈ lkvs, isObjV p.2 = true)
    (hs : lookupKey kvs "settings" = some (.obj skvs))
    (h1 : (lookupKey skvs "highlight_snow_enabled").isSome)
    (h2 : (lookupKey skvs "highlight_snow_over_cm").isSome)
    (h3 : (lookupKey skvs "highlight_rain_enabled").isSome)
    (h4 : (lookupKey skvs "highlight_rain_over_mm").isSome) :
    load_locations (.json (.obj kvs)) = (.ok (.obj kvs), []) ∧
    load_locations (save_locations (.obj kvs)) = (.ok (.obj kvs), []) := by
  have hc : convertAll lkvs = .ok lkvs :=
    convertAll_id lkvs (fun p hp => convert_loc_of_isObjV _ (hobj p hp))
  have hkvs1 : setObj kvs "locations" (.obj lkvs) = kvs := setObj_eq_self _ _ _ hl
  have hs0 : settingsListOf kvs = skvs := by simp [settingsListOf, hs]
  have hfill : fill_settings skvs = skvs := fill_settings_complete _ h1 h2 h3 h4
  have hload : load_locations (.json (.obj kvs)) = (.ok (.obj kvs), []) := by
    rw [load_locations_current kvs lkvs lkvs hl hc, hkvs1, hs0, hfill,
      setObj_eq_self _ _ _ hs]
  exact ⟨hload, hload⟩

/-- Witness for C7: a concrete current-shape document survives
load–save–load unchanged. -/
theorem load_save_load_roundtrip_w :
    load_locations (save_locations (.obj
      [("locations", .obj [("A", .obj [("lat", .num 1), ("lon", .num 2)])]),
       ("settings", .obj defaultSettingsKvs)])) =
      (.ok (.obj
        [("locations", .obj [("A", .obj [("lat", .num 1), ("lon", .num 2)])]),
         ("settings", .obj defaultSettingsKvs)]),
       []) :=
  (load_save_load_roundtrip
    [("locations", .obj [("A", .obj [("lat", .num 1), ("lon", .num 2)])]),
     ("settings", .obj defaultSettingsKvs)]
    [("A", .obj [("lat", .num 1), ("lon", .num 2)])]
    defaultSettingsKvs
    rfl (by decide) rfl rfl rfl rfl rfl).2

/-! ### Forecast-normalization lemmas -/

theorem getD_lt {α : Type} (l : List α) (d : α) (i : ℕ) (h : i < l.length) :
    l.getD i d = l[i] := by
  simp [List.getD_eq_getElem?_getD, List.getElem?_eq_getElem, h]

theorem get_daily_forecast_ok (resp : UpstreamResponse) (df : List Row)
    (h : get_daily_forecast resp = .ok df) :
    df = (List.range (date_range (resp.time + resp.utc_offset)
        (resp.time_end + resp.utc_offset) resp.interval).length).map (fun i =>
      { date := (date_range (resp.time + resp.utc_offset)
          (resp.time_end + resp.utc_offset) resp.interval).getD i 0,
        snowfall := resp.snowfall_sum.getD i 0,
        rain := resp.rain_sum.getD i 0,
        tmax := resp.temperature_max.getD i 0,
        tmin := resp.temperature_min.getD i 0,
        sunshine := resp.sunshine_duration.getD i 0,
        code := resp.weather_code.getD i 0 }) := by
  unfold get_daily_forecast at h
  dsimp only [] at h
  split at h
  · injection h with h; exact h.symm
  · simp at h

/-- Claim C3: the snowfall value fetched from the upstream service
reaches the rendered line unchanged — row `i` of the normalized
DataFrame carries `snowfall_sum[i]` verbatim, and the rendered
`snow_cm` equals it with no mm→cm (or any other) conversion. -/
theorem snow_cm_unconverted (resp : UpstreamResponse) (df : List Row) (v : AppVars)
    (h : get_daily_forecast resp = .ok df) (i : ℕ) (hi : i < df.length) :
    (df.get ⟨i, hi⟩).snowfall = resp.snowfall_sum.getD i 0 ∧
    (render_row (df.get ⟨i, hi⟩) v).snow_cm = resp.snowfall_sum.getD i 0 := by
  have hdf := get_daily_forecast_ok resp df h
  subst hdf
  simp only [List.length_map, List.length_range] at hi
  refine ⟨?_, ?_⟩ <;>
    simp [List.getElem_map, List.getElem_range, render_row]

/-- The upstream reply used to witness C3: one daily slot whose raw
snowfall value is `5.0`. -/
def c3resp : UpstreamResponse :=
  { time := 0, time_end := 86400, interval := 86400, utc_offset := 0,
    snowfall_sum := [5], rain_sum := [0], temperature_max := [0],
    temperature_min := [0], sunshine_duration := [0], weather_code := [0] }

/-- The DataFrame `get_daily_forecast` produces from `c3resp`. -/
def c3df : List Row :=
  [{ date := 0, snowfall := 5, rain := 0, tmax := 0, tmin := 0,
     sunshine := 0, code := 0 }]

/-- Witness for C3: the spec's example — a raw upstream snowfall value
of `5.0` renders as `snow_cm = 5.0`. -/
theorem snow_cm_unconverted_w :
    get_daily_forecast c3resp = .ok c3df ∧
    (render_row (c3df.get ⟨0, by decide⟩)
      ⟨.bool true, .num 1, .bool true, .num 1⟩).snow_cm = 5 :=
  ⟨rfl,
   (snow_cm_unconverted c3resp c3df
     ⟨.bool true, .num 1, .bool true, .num 1⟩
     rfl 0 (by decide)).2⟩

/-- Claim C4: when the upstream reply honours the request issued by
`get_daily_forecast` — a 16-day daily horizon, i.e. an 86400-second
interval with `TimeEnd = Time + 16·86400` — the normalized sequence has
exactly 16 rows and the calendar day of row `i` is the first reported
day plus `i`: the dates are strictly increasing and contiguous with no
duplicates or gaps, starting from the service's first reported day. -/
theorem forecast_sixteen_contiguous_days (resp : UpstreamResponse) (df : List Row)
    (ht : resp.time_end = resp.time + 16 * 86400)
    (hint : resp.interval = 86400)
    (h : get_daily_forecast resp = .ok df) :
    df.length = 16 ∧
    ∀ i (hi : i < df.length),
      dayOf (df.get ⟨i, hi⟩) = (resp.time + resp.utc_offset) / 86400 + (i : ℤ) := by
  have hdf := get_daily_forecast_ok resp df h
  rw [ht, hint] at hdf
  have hcount : (((resp.time + 16 * 86400 + resp.utc_offset) -
      (resp.time + resp.utc_offset)).toNat + ((86400:ℤ).toNat - 1)) / (86400:ℤ).toNat
      = 16 := by
    have h1 : (resp.time + 16 * 86400 + resp.utc_offset) -
        (resp.time + resp.utc_offset) = (1382400 : ℤ) := by ring
    rw [h1]
    decide
  have hdr : date_range (resp.time + resp.utc_offset)
      (resp.time + 16 * 86400 + resp.utc_offset) 86400 =
      (List.range 16).map (fun k : ℕ => (resp.time + resp.utc_offset) + (k:ℤ) * 86400) := by
    unfold date_range
    rw [hcount]
  rw [hdr] at hdf
  simp only [List.length_map, List.length_range] at hdf
  subst hdf
  constructor
  · simp
  · intro i hi
    simp only [List.length_map, List.length_range] at hi
    simp only [List.get_eq_getElem, List.getElem_map, List.getElem_range]
    show ((List.range 16).map
        (fun k : ℕ => (resp.time + resp.utc_offset) + (k:ℤ) * 86400)).getD i 0 / 86400 = _
    rw [getD_lt _ _ _ (by simpa using hi), List.getElem_map, List.getElem_range]
    rw [Int.add_mul_ediv_right _ _ (by norm_num : (86400:ℤ) ≠ 0)]

/-- The upstream reply used to witness C4: 16 daily slots starting at
an epoch time 3600 s past midnight UTC. -/
def c4resp : UpstreamResponse :=
  { time := 3600, time_end := 3600 + 16 * 86400, interval := 86400, utc_offset := 0,
    snowfall_sum := List.replicate 16 0, rain_sum := List.replicate 16 0,
    temperature_max := List.replicate 16 0, temperature_min := List.replicate 16 0,
    sunshine_duration := List.replicate 16 0, weather_code := List.replicate 16 0 }

/-- The DataFrame `get_daily_forecast` produces from `c4resp`. -/
def c4df : List Row :=
  (List.range 16).map (fun k : ℕ =>
    { date := 3600 + (k : ℤ) * 86400, snowfall := 0, rain := 0, tmax := 0,
      tmin := 0, sunshine := 0, code := 0 })

/-- Witness for C4: the concrete reply yields 16 rows and day number 5
at index 5 (day 0 plus the index). -/
theorem forecast_sixteen_contiguous_days_w :
    get_daily_forecast c4resp = .ok c4df ∧
    c4df.length = 16 ∧
    dayOf (c4df.get ⟨5, by decide⟩) = (3600 : ℤ) / 86400 + 5 :=
  ⟨rfl, (forecast_sixteen_contiguous_days c4resp c4df rfl rfl rfl).1,
   (forecast_sixteen_contiguous_days c4resp c4df rfl rfl rfl).2 5 (by decide)⟩
